import Mathlib

/-!
# Device History — verification of the spec against the sources

Shallow embedding of the `device-history` application (TypeScript
frontend under `src/`, with the Rust monitoring core modelled from the
spec where its sources are not among the analyzed files).

Conventions of the embedding:
* JavaScript `Record<string, T>` objects become association lists
  `List (String × T)` with `List.lookup`.
* JavaScript numbers become `ℚ` where arithmetic matters (`usedPercent`)
  and `Nat` for counters (`times_seen`, `partition_count`).
* `string | null` becomes `Option String`; JS truthiness of a string
  (`if (s)`) is `s ≠ "" ` on the carried value.
* ISO-8601 timestamps stay `String`; their chronological order is
  lexicographic order on the character list (`tsLe` below).
-/

namespace DeviceHistory

/-! ## Generic string / association-list helpers -/

/-- Substring test on character lists: `hasSubstr sub l` is true iff `sub`
occurs contiguously inside `l`. Models JavaScript `String.includes`. -/
def hasSubstr (sub : List Char) : List Char → Bool
  | [] => sub.isPrefixOf ([] : List Char)
  | c :: rest => sub.isPrefixOf (c :: rest) || hasSubstr sub rest

/-- JavaScript `s.includes(sub)`. -/
def includes (s sub : String) : Bool := hasSubstr sub.data s.data

/-- JavaScript `String.prototype.toLowerCase`, character by character
(the analyzed class strings are ASCII). -/
def jsToLower (s : String) : String := ⟨s.data.map Char.toLower⟩

/-- The characters `String.prototype.trim` removes: ECMA-262 WhiteSpace
(TAB, VT, FF, SP, NBSP, ZWNBSP and the Unicode space separators) and
LineTerminator (LF, CR, LS, PS). -/
def jsWhitespaceChars : List Char :=
  ['\x09', '\x0a', '\x0b', '\x0c', '\x0d', '\x20', '\xa0', '\u1680',
   '\u2000', '\u2001', '\u2002', '\u2003', '\u2004', '\u2005', '\u2006',
   '\u2007', '\u2008', '\u2009', '\u200a', '\u2028', '\u2029', '\u202f',
   '\u205f', '\u3000', '\ufeff']

/-- Whether JavaScript `trim` treats `c` as whitespace. -/
def jsIsWhitespace (c : Char) : Bool := jsWhitespaceChars.contains c

/-- JavaScript `String.prototype.trim`: drop ECMA-262 whitespace at both
ends. -/
def jsTrim (s : String) : String :=
  ⟨((s.data.dropWhile jsIsWhitespace).reverse.dropWhile jsIsWhitespace).reverse⟩

/-- Lexicographic `≤` on character lists, as a boolean. -/
def strLeb : List Char → List Char → Bool
  | [], _ => true
  | _ :: _, [] => false
  | a :: as, b :: bs => if a < b then true else if b < a then false else strLeb as bs

/-- Chronological order of ISO-8601 timestamp strings: lexicographic order
of the character sequences. -/
def tsLe (a b : String) : Prop := strLeb a.data b.data = true

instance (a b : String) : Decidable (tsLe a b) := by unfold tsLe; infer_instance

/-- Update every binding of key `k` in an association list by `f`,
leaving all other bindings untouched (JS object field mutation). -/
def updateEntry (m : List (String × α)) (k : String) (f : α → α) : List (String × α) :=
  m.map (fun p => if p.1 == k then (p.1, f p.2) else p)

/-- Remove every binding of key `k` (JS `delete obj[k]`). -/
def removeEntry (m : List (String × α)) (k : String) : List (String × α) :=
  m.filter (fun p => p.1 != k)

/-! ## Data model (src/src/lib/types.ts) -/

/-- `VolumeInfo` from `types.ts`. -/
structure VolumeInfo where
  drive_letter : String
  volume_name : String
  total_bytes : ℚ
  free_bytes : ℚ
  file_system : String
  volume_serial : String
deriving DecidableEq, Repr

/-- `StorageInfo` from `types.ts`. -/
structure StorageInfo where
  model : String
  serial_number : String
  total_bytes : ℚ
  interface_type : String
  media_type : String
  firmware : String
  partition_count : Nat
  status : String
  volumes : List VolumeInfo
deriving DecidableEq, Repr

/-- `KnownDevice` from `types.ts` (a Ledger entry). -/
structure KnownDevice where
  device_id : String
  name : String
  vid_pid : String
  «class» : String
  manufacturer : String
  description : String
  first_seen : String
  last_seen : String
  times_seen : Nat
  currently_connected : Bool
  nickname : Option String
  storage_info : Option StorageInfo
deriving DecidableEq, Repr

/-- Event kind: `"connect" | "disconnect"` from `types.ts`. -/
inductive EventKind
  | connect
  | disconnect
deriving DecidableEq, Repr

/-- `DeviceEvent` from `types.ts`. -/
structure DeviceEvent where
  timestamp : String
  kind : EventKind
  name : String
  vid_pid : Option String
  manufacturer : Option String
  «class» : String
  device_id : String
deriving DecidableEq, Repr

/-- `DeviceSnapshot` from `types.ts` — one observed device of one poll
(the spec's `ObservedDevice`). -/
structure DeviceSnapshot where
  device_id : String
  name : String
  vid_pid : Option String
  manufacturer : Option String
  «class» : String
deriving DecidableEq, Repr

/-- `AppSnapshot` from `types.ts` — the bundle published per cycle. -/
structure AppSnapshot where
  devices : List DeviceSnapshot
  events : List DeviceEvent
  known_devices : List (String × KnownDevice)
  storage_info : List (String × StorageInfo)
  error : Option String
deriving DecidableEq, Repr

/-- `Prefs` from `types.ts`. -/
structure Prefs where
  theme : String
  active_tab : String
deriving DecidableEq, Repr

/-- Tab identifiers: the frontend type `"monitor" | "known"`. -/
inductive Tab
  | monitor
  | known
deriving DecidableEq, Repr

/-! ## Pure utilities (src/src/lib/utils.ts) -/

/-- `usedPercent` from `utils.ts`:
`if (total === 0) return 0; return ((1 - free / total) * 100);`. -/
def usedPercent (total free : ℚ) : ℚ :=
  if total = 0 then 0 else (1 - free / total) * 100

/-- `deviceClassCategory` from `utils.ts`: guard on a falsy class string,
then the ordered case-insensitive substring rules. -/
def deviceClassCategory (className : Option String) : String :=
  match className with
  | none => "Other"
  | some cn =>
    if cn = "" then "Other"
    else
      let c := jsToLower cn
      if includes c "disk" || includes c "storage" || includes c "cdrom" then "Storage"
      else if includes c "hid" || includes c "keyboard" || includes c "mouse" then "HID"
      else if includes c "audio" || includes c "sound" then "Audio"
      else if includes c "bluetooth" then "Bluetooth"
      else if includes c "net" || includes c "wireless" then "Network"
      else "Other"

/-- The spec's reading of the classifier: an ordered list of substring
rules, each a set of lowercase substrings with a category. -/
def classRules : List (List String × String) :=
  [(["disk", "storage", "cdrom"], "Storage"),
   (["hid", "keyboard", "mouse"], "HID"),
   (["audio", "sound"], "Audio"),
   (["bluetooth"], "Bluetooth"),
   (["net", "wireless"], "Network")]

/-- First matching rule wins; `"Other"` when no rule matches. -/
def applyClassRules (rules : List (List String × String)) (c : String) : String :=
  match rules with
  | [] => "Other"
  | (subs, cat) :: rest =>
    if subs.any (fun sub => includes c sub) then cat else applyClassRules rest c

/-- The classifier as the spec words it: a pure rule-table classification
over the lowercased class string, `"Other"` for a missing class. -/
def deviceClassCategorySpec (className : Option String) : String :=
  match className with
  | none => "Other"
  | some cn => applyClassRules classRules (jsToLower cn)

/-- The six categories the classifier may produce. -/
def allCategories : List String :=
  ["Storage", "HID", "Audio", "Bluetooth", "Network", "Other"]

/-! ## Themes (theme registry source file) -/

/-- `ThemeMeta` from the theme registry module. -/
structure ThemeMeta where
  id : String
  label : String
  className : String
deriving DecidableEq, Repr

/-- The `themes` table. -/
def themes : List ThemeMeta :=
  [⟨"neon", "Neon", "theme-neon"⟩,
   ⟨"dracula", "Dracula", "theme-dracula"⟩,
   ⟨"mocha", "Mocha", "theme-mocha"⟩]

/-- `themeClass` from the theme registry module:
`themes.find(t => t.id === id)?.className ?? "theme-neon"`. -/
def themeClass (id : String) : String :=
  match themes.find? (fun t => t.id == id) with
  | some t => t.className
  | none => "theme-neon"

/-! ## Frontend application state (src/src/lib/stores/app.svelte.ts) -/

/-- The fields of the `AppState` store that the verified operations
touch. -/
structure AppState where
  devices : List DeviceSnapshot
  events : List DeviceEvent
  knownDevices : List (String × KnownDevice)
  storageInfo : List (String × StorageInfo)
  error : Option String
  theme : String
  activeTab : Tab
  selectedDevice : Option String
  nicknameBuf : String
deriving DecidableEq, Repr

/-- `AppState.applySnapshot` (app.svelte.ts lines 169–175): the four data
fields are replaced wholesale; `if (snap.error) this.error = snap.error`
overwrites the error only when the incoming error is truthy. -/
def applySnapshot (st : AppState) (snap : AppSnapshot) : AppState :=
  { st with
    devices := snap.devices
    events := snap.events
    knownDevices := snap.known_devices
    storageInfo := snap.storage_info
    error :=
      match snap.error with
      | some e => if e = "" then st.error else some e
      | none => st.error }

/-- The nickname value stored by `saveNickname`:
`this.nicknameBuf.trim() || null`. -/
def nicknameOfBuf (buf : String) : Option String :=
  if jsTrim buf = "" then none else some (jsTrim buf)

/-- `AppState.saveNickname` (app.svelte.ts lines 186–196), its effect on
the local state: `if (!this.selectedDevice) return;` is falsy for a null
and for an empty selection, then a no-op without a ledger entry,
otherwise the selected entry's nickname becomes
`nicknameBuf.trim() || null`. -/
def saveNickname (st : AppState) : AppState :=
  match st.selectedDevice with
  | none => st
  | some id =>
    if id = "" then st
    else
      match st.knownDevices.lookup id with
      | none => st
      | some _ =>
        { st with
          knownDevices :=
            updateEntry st.knownDevices id
              (fun kd => { kd with nickname := nicknameOfBuf st.nicknameBuf }) }

/-- `AppState.forgetDevice` (app.svelte.ts lines 198–208), its effect on
the local state: delete the ledger entry and the cached storage info,
clear the selection when it pointed at the forgotten device; the event
log is not touched. -/
def forgetDevice (st : AppState) (id : String) : AppState :=
  { st with
    knownDevices := removeEntry st.knownDevices id
    storageInfo := removeEntry st.storageInfo id
    selectedDevice := if st.selectedDevice == some id then none else st.selectedDevice }

/-- `AppState.getStorageForDevice` (app.svelte.ts lines 276–282):
`this.storageInfo[deviceId] ?? this.knownDevices[deviceId]?.storage_info ?? null`. -/
def getStorageForDevice (st : AppState) (deviceId : String) : Option StorageInfo :=
  match st.storageInfo.lookup deviceId with
  | some si => some si
  | none =>
    match st.knownDevices.lookup deviceId with
    | some kd => kd.storage_info
    | none => none

/-- The allow-listed theme identifiers (`AppState.init`, lines 122–129). -/
def validThemes : List String := ["neon", "dracula", "mocha"]

/-- Preference application from `AppState.init` (app.svelte.ts lines
122–129): `validThemes.includes(prefs.theme) ? prefs.theme : "neon"` and
`prefs.active_tab === "known" ? "known" : "monitor"`. -/
def applyPrefs (prefs : Prefs) : String × Tab :=
  (if validThemes.contains prefs.theme then prefs.theme else "neon",
   if prefs.active_tab = "known" then Tab.known else Tab.monitor)

/-! ## The monitoring core, modelled from the spec

The Rust backend (Snapshot Differ, Known-Device Ledger, Poller) is not
among the analyzed frontend sources; the definitions of this section are
modelled from the spec (§4.2–§4.4). -/

/-- A Ledger: the durable map from device identity to `KnownDevice`. -/
abbrev Ledger := List (String × KnownDevice)

/-- Modelled from the spec: §4.2 Snapshot Differ, whose Rust source is
not among the analyzed files. `connected = current \ previous`,
`disconnected = previous \ current`, keyed by identity. -/
def diff (previous : List String) (current : List DeviceSnapshot) :
    List DeviceSnapshot × List String :=
  (current.filter (fun d => !(previous.contains d.device_id)),
   previous.filter (fun id => !((current.map DeviceSnapshot.device_id).contains id)))

/-- A fresh Ledger entry:
`first_seen = last_seen = now`, `times_seen = 1`, connected. -/
def freshDevice (now : String) (d : DeviceSnapshot) (si : Option StorageInfo) :
    KnownDevice :=
  { device_id := d.device_id
    name := d.name
    vid_pid := d.vid_pid.getD ""
    «class» := d.«class»
    manufacturer := d.manufacturer.getD ""
    description := ""
    first_seen := now
    last_seen := now
    times_seen := 1
    currently_connected := true
    nickname := none
    storage_info := si }

/-- The merge of a connect observation into an existing entry:
`last_seen = now`, `times_seen + 1`, connected, descriptive fields
overwritten latest-wins, nickname and `first_seen` preserved, cached
storage info replaced only when a fresh one is supplied. -/
def mergeDevice (now : String) (d : DeviceSnapshot) (si : Option StorageInfo)
    (kd : KnownDevice) : KnownDevice :=
  { kd with
    name := d.name
    vid_pid := d.vid_pid.getD ""
    «class» := d.«class»
    manufacturer := d.manufacturer.getD ""
    last_seen := now
    times_seen := kd.times_seen + 1
    currently_connected := true
    storage_info := match si with | some s => some s | none => kd.storage_info }

/-- Modelled from the spec: §4.4 Ledger `upsert`, whose Rust source is
not among the analyzed files. Create a fresh entry on first sighting,
otherwise merge the observation into the existing entry. -/
def upsert (now : String) (led : Ledger) (d : DeviceSnapshot)
    (si : Option StorageInfo) : Ledger :=
  match List.lookup d.device_id led with
  | none => led ++ [(d.device_id, freshDevice now d si)]
  | some _ => updateEntry led d.device_id (mergeDevice now d si)

/-- Flip an entry to disconnected; no other field changes. -/
def setDisconnected (kd : KnownDevice) : KnownDevice :=
  { kd with currently_connected := false }

/-- Modelled from the spec: §4.4 Ledger `markDisconnected`, whose Rust
source is not among the analyzed files. Sets `currently_connected =
false`; no other field changes. -/
def markDisconnected (led : Ledger) (id : String) : Ledger :=
  updateEntry led id setDisconnected

/-- Modelled from the spec: §4.4 Ledger `setNickname`, whose Rust source
is not among the analyzed files. Fails (returns `none`) when the
identity is absent; empty/whitespace-only text clears the nickname. -/
def setNickname (led : Ledger) (id : String) (text : String) : Option Ledger :=
  match List.lookup id led with
  | none => none
  | some _ =>
    some (updateEntry led id (fun kd => { kd with nickname := nicknameOfBuf text }))

/-- Modelled from the spec: §4.4 Ledger `forget`, whose Rust source is
not among the analyzed files. Fails (returns `none`) when the identity
is absent, otherwise removes the entry. -/
def forget (led : Ledger) (id : String) : Option Ledger :=
  match List.lookup id led with
  | none => none
  | some _ => some (removeEntry led id)

/-- Modelled from the spec: §4.3 one Poller reconciliation cycle, whose
Rust source is not among the analyzed files. Diff against the retained
identity set, mark the disconnects, upsert the connects, retain the
current identity set. -/
def pollStep (st : List String × Ledger) (p : String × List DeviceSnapshot) :
    List String × Ledger :=
  let connected := (diff st.1 p.2).1
  let disconnected := (diff st.1 p.2).2
  let led1 := disconnected.foldl markDisconnected st.2
  let led2 := connected.foldl (fun l d => upsert p.1 l d none) led1
  (p.2.map DeviceSnapshot.device_id, led2)

/-- Run a sequence of polls (each a timestamp with the enumerated device
set) from a fresh start: empty retained identity set, empty Ledger. -/
def runPolls (seq : List (String × List DeviceSnapshot)) : List String × Ledger :=
  seq.foldl pollStep ([], ([] : Ledger))

/-- Count the connect transitions of identity `id` along a sequence of
enumerations, threading the previous identity set: a poll counts iff the
identity is present now and was not present in the previous poll. -/
def connectCountAux (id : String) (prev : List String) (cnt : Nat) :
    List (String × List DeviceSnapshot) → Nat
  | [] => cnt
  | p :: rest =>
    let ids := p.2.map DeviceSnapshot.device_id
    connectCountAux id ids
      (cnt + if ids.contains id && !(prev.contains id) then 1 else 0) rest

/-- The connect transitions of `id` over a whole run from a fresh start. -/
def connectCount (id : String) (seq : List (String × List DeviceSnapshot)) : Nat :=
  connectCountAux id [] 0 seq

/-- `times_seen` bookkeeping correctness at one identity: an entry exists
with counter `n`, or no entry exists and `n = 0`. -/
def timesSeenIs (o : Option KnownDevice) (n : Nat) : Prop :=
  match o with
  | some kd => kd.times_seen = n
  | none => n = 0

instance : (o : Option KnownDevice) → (n : Nat) → Decidable (timesSeenIs o n)
  | none, _ => by unfold timesSeenIs; infer_instance
  | some _, _ => by unfold timesSeenIs; infer_instance

/-- The timestamp invariant of the spec: every Ledger entry satisfies
`first_seen ≤ last_seen`. -/
def LedgerTimeInv (led : Ledger) : Prop :=
  ∀ p ∈ led, tsLe p.2.first_seen p.2.last_seen

instance (led : Ledger) : Decidable (LedgerTimeInv led) := by
  unfold LedgerTimeInv; infer_instance

/-! ## Concrete sample data, used by the evaluation theorems -/

/-- A sample storage-class device. -/
def sampleA : DeviceSnapshot :=
  ⟨"A", "Flash Drive", some "0781:5567", some "SanDisk", "USBSTOR"⟩

/-- The same identity as `sampleA` with different reported metadata. -/
def sampleARenamed : DeviceSnapshot :=
  ⟨"A", "Backup Stick", some "0781:5567", some "SanDisk Corp", "DiskDrive"⟩

/-- A sample HID device. -/
def sampleB : DeviceSnapshot :=
  ⟨"B", "Wireless Mouse", some "046d:c52b", some "Logitech", "HIDClass"⟩

/-- A sample poll sequence: {A}, {A,B}, {B}, {A,B}. -/
def sampleSeq : List (String × List DeviceSnapshot) :=
  [("2024-05-01T10:00:00", [sampleA]),
   ("2024-05-01T10:00:01", [sampleA, sampleB]),
   ("2024-05-01T10:00:02", [sampleB]),
   ("2024-05-01T10:00:03", [sampleA, sampleB])]

/-- A sample volume. -/
def sampleVolume : VolumeInfo :=
  ⟨"E:", "BACKUP", 31000000000, 12000000000, "exFAT", "ABCD-1234"⟩

/-- A sample storage description. -/
def sampleStorage : StorageInfo :=
  ⟨"SanDisk Ultra", "SN123", 32000000000, "USB", "Removable media", "1.00", 1, "OK",
   [sampleVolume]⟩

/-- A sample Ledger entry for identity `"A"`, currently disconnected,
with cached storage info. -/
def sampleKnownA : KnownDevice :=
  ⟨"A", "Flash Drive", "0781:5567", "USBSTOR", "SanDisk", "",
   "2024-05-01T10:00:00", "2024-05-01T10:00:03", 2, false,
   some "Backup", some sampleStorage⟩

/-- A sample connect event for identity `"A"`. -/
def sampleEvent : DeviceEvent :=
  ⟨"2024-05-01T10:00:00", EventKind.connect, "Flash Drive",
   some "0781:5567", some "SanDisk", "USBSTOR", "A"⟩

/-- A sample frontend state: `"A"` known and selected, not in the live
storage cache, one recorded event. -/
def sampleState : AppState :=
  { devices := []
    events := [sampleEvent]
    knownDevices := [("A", sampleKnownA)]
    storageInfo := []
    error := none
    theme := "neon"
    activeTab := Tab.monitor
    selectedDevice := some "A"
    nicknameBuf := "  Backup Drive " }

/-- A sample error-free published snapshot. -/
def sampleSnap : AppSnapshot :=
  ⟨[sampleB], [sampleEvent], [("A", sampleKnownA)], [], none⟩

/-- A sample snapshot carrying an error. -/
def sampleErrSnap : AppSnapshot :=
  ⟨[], [sampleEvent], [("A", sampleKnownA)], [], some "enumeration failed"⟩

/-! ## Association-list lemmas -/

theorem lookup_cons_eq (k : String) (v : α) (m : List (String × α)) (a : String) :
    ((k, v) :: m).lookup a = if a = k then some v else m.lookup a := by
  by_cases h : a = k
  · simp [List.lookup_cons, h]
  · simp [List.lookup_cons, beq_false_of_ne h, h]

theorem lookup_append (m1 m2 : List (String × α)) (a : String) :
    (m1 ++ m2).lookup a =
      match m1.lookup a with
      | some v => some v
      | none => m2.lookup a := by
  induction m1 with
  | nil => simp
  | cons p rest ih =>
    obtain ⟨pk, pv⟩ := p
    by_cases h : a = pk
    · rw [List.cons_append, lookup_cons_eq, if_pos h, lookup_cons_eq, if_pos h]
    · rw [List.cons_append, lookup_cons_eq, if_neg h, lookup_cons_eq, if_neg h, ih]

theorem updateEntry_cons (pk : String) (pv : α) (rest : List (String × α))
    (k : String) (f : α → α) :
    updateEntry ((pk, pv) :: rest) k f
      = (if pk = k then (pk, f pv) else (pk, pv)) :: updateEntry rest k f := by
  by_cases h : pk = k <;> simp [updateEntry, h]

theorem removeEntry_cons (pk : String) (pv : α) (rest : List (String × α)) (k : String) :
    removeEntry ((pk, pv) :: rest) k
      = if pk = k then removeEntry rest k else (pk, pv) :: removeEntry rest k := by
  by_cases h : pk = k <;> simp [removeEntry, h]

theorem lookup_updateEntry (m : List (String × α)) (k : String) (f : α → α) (a : String) :
    (updateEntry m k f).lookup a =
      if a = k then (m.lookup a).map f else m.lookup a := by
  induction m with
  | nil => by_cases h : a = k <;> simp [updateEntry, h]
  | cons p rest ih =>
    obtain ⟨pk, pv⟩ := p
    rw [updateEntry_cons]
    by_cases hpk : pk = k
    · rw [if_pos hpk]
      by_cases h : a = pk
      · have hak : a = k := h.trans hpk
        rw [lookup_cons_eq, if_pos h, if_pos hak, lookup_cons_eq, if_pos h]
        rfl
      · have hak : a ≠ k := fun hh => h (hh.trans hpk.symm)
        rw [lookup_cons_eq, if_neg h, ih, if_neg hak, if_neg hak, lookup_cons_eq, if_neg h]
    · rw [if_neg hpk]
      by_cases h : a = pk
      · have hak : a ≠ k := fun hh => hpk (h.symm.trans hh)
        rw [lookup_cons_eq, if_pos h, if_neg hak, lookup_cons_eq, if_pos h]
      · rw [lookup_cons_eq, if_neg h, ih]
        by_cases hak : a = k
        · rw [if_pos hak, if_pos hak, lookup_cons_eq, if_neg h]
        · rw [if_neg hak, if_neg hak, lookup_cons_eq, if_neg h]

theorem lookup_removeEntry (m : List (String × α)) (k a : String) :
    (removeEntry m k).lookup a = if a = k then none else m.lookup a := by
  induction m with
  | nil => by_cases h : a = k <;> simp [removeEntry, h]
  | cons p rest ih =>
    obtain ⟨pk, pv⟩ := p
    rw [removeEntry_cons]
    by_cases hpk : pk = k
    · rw [if_pos hpk, ih]
      by_cases hak : a = k
      · rw [if_pos hak, if_pos hak]
      · have h : a ≠ pk := fun hh => hak (hh.trans hpk)
        rw [if_neg hak, if_neg hak, lookup_cons_eq, if_neg h]
    · rw [if_neg hpk]
      by_cases h : a = pk
      · have hak : a ≠ k := fun hh => hpk (h.symm.trans hh)
        rw [lookup_cons_eq, if_pos h, if_neg hak, lookup_cons_eq, if_pos h]
      · rw [lookup_cons_eq, if_neg h, ih]
        by_cases hak : a = k
        · rw [if_pos hak, if_pos hak]
        · rw [if_neg hak, if_neg hak, lookup_cons_eq, if_neg h]

/-! ## C10 — guarded division in `usedPercent` -/

/-- C10: `usedPercent` is a total function whose division is guarded: a
zero total yields exactly 0 without dividing, and a nonzero total yields
`(1 - free / total) * 100`. -/
theorem usedPercent_guarded (total free : ℚ) :
    (total = 0 → usedPercent total free = 0) ∧
    (total ≠ 0 → usedPercent total free = (1 - free / total) * 100) := by
  constructor <;> intro h <;> simp [usedPercent, h]

/-- Evaluation of C10 at `total = 0` and at `total = 200, free = 50`. -/
theorem usedPercent_guarded_app :
    usedPercent 0 5 = 0 ∧ usedPercent 200 50 = (1 - 50 / 200) * 100 :=
  ⟨(usedPercent_guarded 0 5).1 rfl, (usedPercent_guarded 200 50).2 (by norm_num)⟩

/-! ## C7 — allow-listed preference values -/

/-- C7: loaded preferences pass an allow-list: the theme is kept exactly
when it is one of `neon`/`dracula`/`mocha` and falls back to `"neon"`
otherwise; the active tab becomes `known` exactly when the stored value
is `"known"` and `monitor` otherwise; the resulting theme is always
allow-listed. -/
theorem applyPrefs_allowlist (p : Prefs) :
    ((p.theme = "neon" ∨ p.theme = "dracula" ∨ p.theme = "mocha") →
      (applyPrefs p).1 = p.theme) ∧
    (¬(p.theme = "neon" ∨ p.theme = "dracula" ∨ p.theme = "mocha") →
      (applyPrefs p).1 = "neon") ∧
    (p.active_tab = "known" → (applyPrefs p).2 = Tab.known) ∧
    (p.active_tab ≠ "known" → (applyPrefs p).2 = Tab.monitor) ∧
    ((applyPrefs p).1 = "neon" ∨ (applyPrefs p).1 = "dracula" ∨
      (applyPrefs p).1 = "mocha") := by
  have hmem : (p.theme = "neon" ∨ p.theme = "dracula" ∨ p.theme = "mocha") ↔
      p.theme ∈ validThemes := by
    simp [validThemes]
  have hkeep : (p.theme = "neon" ∨ p.theme = "dracula" ∨ p.theme = "mocha") →
      (applyPrefs p).1 = p.theme := fun h => by
    have hm := hmem.mp h
    simp [applyPrefs, hm]
  have hdrop : ¬(p.theme = "neon" ∨ p.theme = "dracula" ∨ p.theme = "mocha") →
      (applyPrefs p).1 = "neon" := by
    intro h
    have hm : p.theme ∉ validThemes := fun hm => h (hmem.mpr hm)
    simp [applyPrefs, hm]
  refine ⟨hkeep, hdrop, fun h => by simp [applyPrefs, h], fun h => by simp [applyPrefs, h], ?_⟩
  by_cases h : p.theme = "neon" ∨ p.theme = "dracula" ∨ p.theme = "mocha"
  · rw [hkeep h]; exact h
  · rw [hdrop h]; exact Or.inl rfl

/-- Evaluation of C7: a valid and an invalid stored preference pair. -/
theorem applyPrefs_allowlist_app :
    (applyPrefs ⟨"dracula", "known"⟩).1 = "dracula" ∧
    (applyPrefs ⟨"light", "settings"⟩).1 = "neon" ∧
    (applyPrefs ⟨"dracula", "known"⟩).2 = Tab.known ∧
    (applyPrefs ⟨"light", "settings"⟩).2 = Tab.monitor :=
  ⟨(applyPrefs_allowlist ⟨"dracula", "known"⟩).1 (by decide),
   (applyPrefs_allowlist ⟨"light", "settings"⟩).2.1 (by decide),
   (applyPrefs_allowlist ⟨"dracula", "known"⟩).2.2.1 (by decide),
   (applyPrefs_allowlist ⟨"light", "settings"⟩).2.2.2.1 (by decide)⟩

/-! ## C8 — the device-class classifier -/

/-- C8: `deviceClassCategory` is a pure total function into the six
categories, and it coincides with the spec's ordered-substring-rule
table (first matching rule wins, case-insensitively, `"Other"` for a
missing class string or no match). -/
theorem deviceClassCategory_rules (c : Option String) :
    deviceClassCategory c = deviceClassCategorySpec c ∧
    deviceClassCategory c ∈ allCategories := by
  constructor
  · obtain _ | s := c
    · rfl
    · by_cases h : s = ""
      · subst h; decide
      · simp [deviceClassCategory, deviceClassCategorySpec, h,
          applyClassRules, classRules, Bool.or_assoc]
  · obtain _ | s := c
    · simp [deviceClassCategory, allCategories]
    · by_cases h : s = ""
      · subst h; decide
      · simp only [deviceClassCategory, if_neg h]
        split_ifs <;> simp [allCategories]

/-! ## C6 — storage lookup precedence -/

/-- C6: `getStorageForDevice` serves the live storage cache first, then
the ledger entry's last-known `storage_info`, and `none` otherwise — so
a disconnected device absent from the live cache is served from the
ledger's cache. -/
theorem getStorageForDevice_precedence (st : AppState) (id : String) :
    (∀ si, st.storageInfo.lookup id = some si → getStorageForDevice st id = some si) ∧
    (st.storageInfo.lookup id = none →
      ∀ kd, st.knownDevices.lookup id = some kd →
        getStorageForDevice st id = kd.storage_info) ∧
    (st.storageInfo.lookup id = none → st.knownDevices.lookup id = none →
      getStorageForDevice st id = none) := by
  refine ⟨fun si h => ?_, fun h kd hkd => ?_, fun h hk => ?_⟩
  · simp [getStorageForDevice, h]
  · simp [getStorageForDevice, h, hkd]
  · simp [getStorageForDevice, h, hk]

/-- Evaluation of C6: the disconnected sample device is served its
ledger-cached storage info. -/
theorem getStorageForDevice_precedence_app :
    getStorageForDevice sampleState "A" = sampleKnownA.storage_info :=
  (getStorageForDevice_precedence sampleState "A").2.1 (by decide) sampleKnownA (by decide)

/-! ## C9 — snapshot application and the latched error field -/

theorem applySnapshot_error_ne_none (st : AppState) (snap : AppSnapshot)
    (h : st.error ≠ none) : (applySnapshot st snap).error ≠ none := by
  unfold applySnapshot
  obtain _ | e := snap.error
  · exact h
  · by_cases he : e = "" <;> simp [he, h]

/-- C9: `applySnapshot` replaces the devices, events, known-devices and
storage collections wholesale with the snapshot's; the error field is
overwritten only when the incoming error is non-null (and non-empty,
JS truthiness), so once the stored error is non-null no sequence of
later snapshot applications ever resets it to null. -/
theorem applySnapshot_latches_error (st : AppState) (snap : AppSnapshot) :
    (applySnapshot st snap).devices = snap.devices ∧
    (applySnapshot st snap).events = snap.events ∧
    (applySnapshot st snap).knownDevices = snap.known_devices ∧
    (applySnapshot st snap).storageInfo = snap.storage_info ∧
    ((applySnapshot st snap).error ≠ st.error → ∃ e, snap.error = some e ∧ e ≠ "") ∧
    (∀ snaps : List AppSnapshot, st.error ≠ none →
      (snaps.foldl applySnapshot st).error ≠ none) := by
  refine ⟨rfl, rfl, rfl, rfl, ?_, ?_⟩
  · intro hne
    cases hs : snap.error with
    | none =>
      refine absurd ?_ hne
      unfold applySnapshot
      rw [hs]
    | some e =>
      by_cases he : e = ""
      · refine absurd ?_ hne
        unfold applySnapshot
        rw [hs]
        simp [he]
      · exact ⟨e, rfl, he⟩
  · intro snaps
    induction snaps generalizing st with
    | nil => exact fun h => h
    | cons s rest ih =>
      intro h
      exact ih (applySnapshot st s) (applySnapshot_error_ne_none st s h)

/-- Evaluation of C9: a null error from a clean later cycle does not
clear a previously recorded error; a truthy error does overwrite. -/
theorem applySnapshot_latches_error_app :
    (List.foldl applySnapshot { sampleState with error := some "boom" }
      [sampleSnap, sampleSnap]).error ≠ none ∧
    (∃ e, sampleErrSnap.error = some e ∧ e ≠ "") :=
  ⟨(applySnapshot_latches_error { sampleState with error := some "boom" }
      sampleSnap).2.2.2.2.2 [sampleSnap, sampleSnap] (by decide),
   (applySnapshot_latches_error sampleState sampleErrSnap).2.2.2.2.1 (by decide)⟩

/-! ## C4 — forgetting a device -/

/-- C4: forgetting a device removes its ledger entry and its cached
storage info, leaves every other identity's entries untouched, and does
not touch the event log — every recorded event survives. -/
theorem forgetDevice_frame (st : AppState) (id : String) :
    (forgetDevice st id).knownDevices.lookup id = none ∧
    (forgetDevice st id).storageInfo.lookup id = none ∧
    (forgetDevice st id).events = st.events ∧
    (∀ e, e ∈ st.events → e ∈ (forgetDevice st id).events) ∧
    (∀ other, other ≠ id →
      (forgetDevice st id).knownDevices.lookup other = st.knownDevices.lookup other ∧
      (forgetDevice st id).storageInfo.lookup other = st.storageInfo.lookup other) := by
  refine ⟨?_, ?_, rfl, fun e he => he, fun other h => ⟨?_, ?_⟩⟩
  · show (removeEntry st.knownDevices id).lookup id = none
    rw [lookup_removeEntry, if_pos rfl]
  · show (removeEntry st.storageInfo id).lookup id = none
    rw [lookup_removeEntry, if_pos rfl]
  · show (removeEntry st.knownDevices id).lookup other = _
    rw [lookup_removeEntry, if_neg h]
  · show (removeEntry st.storageInfo id).lookup other = _
    rw [lookup_removeEntry, if_neg h]

/-- Evaluation of C4 on the sample state: `"A"` is gone from the ledger,
its event survives, and the (absent) identity `"B"` is unaffected. -/
theorem forgetDevice_frame_app :
    (forgetDevice sampleState "A").knownDevices.lookup "A" = none ∧
    sampleEvent ∈ (forgetDevice sampleState "A").events ∧
    (forgetDevice sampleState "A").knownDevices.lookup "B"
      = sampleState.knownDevices.lookup "B" :=
  ⟨(forgetDevice_frame sampleState "A").1,
   (forgetDevice_frame sampleState "A").2.2.2.1 sampleEvent (by decide),
   ((forgetDevice_frame sampleState "A").2.2.2.2 "B" (by decide)).1⟩

/-! ## C5 — nickname trimming -/

theorem jsTrim_eq_empty_of_whitespace (s : String)
    (h : ∀ c ∈ s.data, jsIsWhitespace c) : jsTrim s = "" := by
  unfold jsTrim
  have h1 : s.data.dropWhile jsIsWhitespace = [] :=
    List.dropWhile_eq_nil_iff.mpr h
  rw [h1]
  rfl

/-- Counterexample to C5 as stated: for a ledger-present device whose
identity is the empty string, `if (!this.selectedDevice) return;` is
falsy and returns early, so a whitespace-only buffer does not clear its
nickname to absent — the entry keeps its previous nickname. -/
theorem saveNickname_empty_guard_cex :
    (saveNickname
      { sampleState with
          selectedDevice := some ""
          knownDevices := [("", sampleKnownA)]
          nicknameBuf := "   " }).knownDevices.lookup "" = some sampleKnownA ∧
    sampleKnownA.nickname ≠ none := by
  constructor <;> decide

/-- C5 (amended: the selected identity is non-empty, since the source's
falsy guard `if (!this.selectedDevice) return;` also returns early on an
empty selection): saving a nickname for the selected present entry
stores `trim(text) || null` — empty or whitespace-only text clears the
nickname to absent, any other text stores the trimmed text; no other
field of the entry changes, and other entries are untouched. -/
theorem saveNickname_trims (st : AppState) (id : String) (kd : KnownDevice)
    (hsel : st.selectedDevice = some id) (hid : id ≠ "")
    (hkd : st.knownDevices.lookup id = some kd) :
    (saveNickname st).knownDevices.lookup id
      = some { kd with nickname := nicknameOfBuf st.nicknameBuf } ∧
    ((∀ c ∈ st.nicknameBuf.data, jsIsWhitespace c) →
      (saveNickname st).knownDevices.lookup id = some { kd with nickname := none }) ∧
    (jsTrim st.nicknameBuf ≠ "" →
      (saveNickname st).knownDevices.lookup id
        = some { kd with nickname := some (jsTrim st.nicknameBuf) }) ∧
    (∀ other, other ≠ id →
      (saveNickname st).knownDevices.lookup other = st.knownDevices.lookup other) := by
  have hmain : (saveNickname st).knownDevices
      = updateEntry st.knownDevices id
          (fun k => { k with nickname := nicknameOfBuf st.nicknameBuf }) := by
    simp only [saveNickname, hsel, if_neg hid, hkd]
  refine ⟨?_, fun hw => ?_, fun hne => ?_, fun other h => ?_⟩
  · rw [hmain, lookup_updateEntry, if_pos rfl, hkd]
    rfl
  · rw [hmain, lookup_updateEntry, if_pos rfl, hkd]
    have : nicknameOfBuf st.nicknameBuf = none := by
      unfold nicknameOfBuf
      rw [if_pos (jsTrim_eq_empty_of_whitespace st.nicknameBuf hw)]
    simp [this]
  · rw [hmain, lookup_updateEntry, if_pos rfl, hkd]
    have : nicknameOfBuf st.nicknameBuf = some (jsTrim st.nicknameBuf) := by
      unfold nicknameOfBuf
      rw [if_neg hne]
    simp [this]
  · rw [hmain, lookup_updateEntry, if_neg h]

/-- Evaluation of C5: the sample buffer `"  Backup Drive "` stores the
trimmed nickname; a whitespace-only buffer clears it to absent. -/
theorem saveNickname_trims_app :
    (saveNickname sampleState).knownDevices.lookup "A"
      = some { sampleKnownA with nickname := some "Backup Drive" } ∧
    (saveNickname { sampleState with nicknameBuf := "   " }).knownDevices.lookup "A"
      = some { sampleKnownA with nickname := none } :=
  ⟨((saveNickname_trims sampleState "A" sampleKnownA rfl (by decide) (by decide)).2.2.1
      (by decide)).trans (by decide),
   (saveNickname_trims { sampleState with nicknameBuf := "   " } "A" sampleKnownA
      rfl (by decide) (by decide)).2.1 (by decide)⟩

/-! ## C1 — the Snapshot Differ is set difference keyed by identity -/

/-- C1: `connected` holds exactly the current devices whose identity was
not previously present, `disconnected` exactly the previous identities
now absent, and a device present in both observations yields neither
event — whatever its reported metadata. -/
theorem diff_set_difference (previous : List String) (current : List DeviceSnapshot) :
    (∀ d, d ∈ (diff previous current).1 ↔ d ∈ current ∧ d.device_id ∉ previous) ∧
    (∀ id, id ∈ (diff previous current).2 ↔
      id ∈ previous ∧ id ∉ current.map DeviceSnapshot.device_id) ∧
    (∀ d, d ∈ current → d.device_id ∈ previous →
      d ∉ (diff previous current).1 ∧ d.device_id ∉ (diff previous current).2) := by
  refine ⟨fun d => ?_, fun id => ?_, fun d hc hp => ⟨fun hmem => ?_, fun hmem => ?_⟩⟩
  · simp [diff, List.mem_filter]
  · simp [diff, List.mem_filter]
  · have := (List.mem_filter.mp hmem).2
    simp [hp] at this
  · have := (List.mem_filter.mp hmem).2
    have hm : d.device_id ∈ current.map DeviceSnapshot.device_id :=
      List.mem_map_of_mem DeviceSnapshot.device_id hc
    simp [hm] at this

/-- Evaluation of C1: identity `"A"` present in both polls yields no
event even though its metadata changed, while the new `"B"` connects. -/
theorem diff_set_difference_app :
    sampleARenamed ∉ (diff ["A"] [sampleARenamed, sampleB]).1 ∧
    "A" ∉ (diff ["A"] [sampleARenamed, sampleB]).2 ∧
    sampleB ∈ (diff ["A"] [sampleARenamed, sampleB]).1 :=
  ⟨((diff_set_difference ["A"] [sampleARenamed, sampleB]).2.2 sampleARenamed
      (by decide) (by decide)).1,
   ((diff_set_difference ["A"] [sampleARenamed, sampleB]).2.2 sampleARenamed
      (by decide) (by decide)).2,
   ((diff_set_difference ["A"] [sampleARenamed, sampleB]).1 sampleB).mpr
      ⟨by decide, by decide⟩⟩

/-! ## C3 — `first_seen ≤ last_seen` after every mutation -/

theorem strLeb_refl (l : List Char) : strLeb l l = true := by
  induction l with
  | nil => rfl
  | cons c rest ih =>
    unfold strLeb
    rw [if_neg (lt_irrefl c), if_neg (lt_irrefl c)]
    exact ih

theorem tsLe_refl (s : String) : tsLe s s := strLeb_refl s.data

theorem mem_updateEntry (m : List (String × α)) (k : String) (f : α → α)
    (p : String × α) (hp : p ∈ updateEntry m k f) :
    ∃ q ∈ m, p = (if q.1 = k then (q.1, f q.2) else q) := by
  obtain ⟨q, hq, hfq⟩ := List.mem_map.mp hp
  refine ⟨q, hq, ?_⟩
  by_cases h : q.1 = k
  · rw [if_pos h, ← hfq, if_pos (by simp [h])]
  · rw [if_neg h, ← hfq, if_neg (by simp [h])]

/-- C3: each Ledger mutation preserves `first_seen ≤ last_seen` on every
entry: `upsert` at an observation time no earlier than any recorded
`first_seen` (wall-clock monotonicity), and `markDisconnected`,
`setNickname` and `forget` unconditionally, since they never touch the
timestamps. -/
theorem mutations_preserve_first_le_last
    (led : Ledger) (now : String) (d : DeviceSnapshot) (si : Option StorageInfo)
    (id text : String)
    (hinv : LedgerTimeInv led)
    (hclock : ∀ p ∈ led, tsLe p.2.first_seen now) :
    LedgerTimeInv (upsert now led d si) ∧
    LedgerTimeInv (markDisconnected led id) ∧
    (∀ led2, setNickname led id text = some led2 → LedgerTimeInv led2) ∧
    (∀ led2, forget led id = some led2 → LedgerTimeInv led2) := by
  refine ⟨?_, ?_, ?_, ?_⟩
  · unfold upsert
    cases List.lookup d.device_id led with
    | none =>
      intro p hp
      rcases List.mem_append.mp hp with hold | hnew
      · exact hinv p hold
      · rw [List.mem_singleton.mp hnew]
        exact tsLe_refl now
    | some kd0 =>
      intro p hp
      obtain ⟨q, hq, hpq⟩ := mem_updateEntry _ _ _ p hp
      by_cases h : q.1 = d.device_id
      · rw [hpq, if_pos h]
        exact hclock q hq
      · rw [hpq, if_neg h]
        exact hinv q hq
  · intro p hp
    obtain ⟨q, hq, hpq⟩ := mem_updateEntry _ _ _ p hp
    by_cases h : q.1 = id
    · rw [hpq, if_pos h]
      exact hinv q hq
    · rw [hpq, if_neg h]
      exact hinv q hq
  · intro led2 hled2
    unfold setNickname at hled2
    cases hl : List.lookup id led with
    | none =>
      simp only [hl] at hled2
      exact Option.noConfusion hled2
    | some kd0 =>
      simp only [hl] at hled2
      rw [← Option.some_inj.mp hled2]
      intro p hp
      obtain ⟨q, hq, hpq⟩ := mem_updateEntry _ _ _ p hp
      by_cases h : q.1 = id
      · rw [hpq, if_pos h]
        exact hinv q hq
      · rw [hpq, if_neg h]
        exact hinv q hq
  · intro led2 hled2
    unfold forget at hled2
    cases hl : List.lookup id led with
    | none =>
      simp only [hl] at hled2
      exact Option.noConfusion hled2
    | some kd0 =>
      simp only [hl] at hled2
      rw [← Option.some_inj.mp hled2]
      intro p hp
      exact hinv p (List.mem_filter.mp hp).1

/-- Evaluation of C3: upserting a re-sighting of the sample entry at a
later wall-clock time keeps `first_seen ≤ last_seen`. -/
theorem mutations_preserve_first_le_last_app :
    LedgerTimeInv
      (upsert "2024-06-01T00:00:00" [("A", sampleKnownA)] sampleARenamed none) :=
  (mutations_preserve_first_le_last [("A", sampleKnownA)] "2024-06-01T00:00:00"
      sampleARenamed none "A" "nick" (by decide) (by decide)).1

/-! ## C2 — `times_seen` counts connect transitions -/

theorem setDisconnected_idem (kd : KnownDevice) :
    setDisconnected (setDisconnected kd) = setDisconnected kd := rfl

theorem map_setDisconnected_idem (o : Option KnownDevice) :
    Option.map (setDisconnected ∘ setDisconnected) o = Option.map setDisconnected o := by
  cases o <;> rfl

theorem lookup_upsert_ne (now : String) (led : Ledger) (d : DeviceSnapshot)
    (si : Option StorageInfo) (a : String) (h : a ≠ d.device_id) :
    List.lookup a (upsert now led d si) = List.lookup a led := by
  unfold upsert
  cases List.lookup d.device_id led with
  | none =>
    rw [lookup_append]
    cases hl : List.lookup a led with
    | none => simp [lookup_cons_eq, h]
    | some v => rfl
  | some kd0 => rw [lookup_updateEntry, if_neg h]

theorem lookup_upsert_self (now : String) (led : Ledger) (d : DeviceSnapshot)
    (si : Option StorageInfo) :
    List.lookup d.device_id (upsert now led d si)
      = some (match List.lookup d.device_id led with
              | none => freshDevice now d si
              | some kd => mergeDevice now d si kd) := by
  unfold upsert
  cases hl : List.lookup d.device_id led with
  | none =>
    rw [lookup_append, hl]
    simp [lookup_cons_eq]
  | some kd0 =>
    rw [lookup_updateEntry, if_pos rfl, hl]
    rfl

theorem lookup_foldl_markDisconnected (ids : List String) (led : Ledger) (a : String) :
    List.lookup a (ids.foldl markDisconnected led)
      = if a ∈ ids then (List.lookup a led).map setDisconnected
        else List.lookup a led := by
  induction ids generalizing led with
  | nil => simp
  | cons k rest ih =>
    rw [List.foldl_cons, ih]
    unfold markDisconnected
    rw [lookup_updateEntry]
    by_cases hk : a = k <;> by_cases hr : a ∈ rest <;>
      simp [hk, hr, Option.map_map, map_setDisconnected_idem]

theorem lookup_foldl_upsert_ne (now : String) (ds : List DeviceSnapshot) (led : Ledger)
    (a : String) (h : ∀ d ∈ ds, d.device_id ≠ a) :
    List.lookup a (ds.foldl (fun l d => upsert now l d none) led) = List.lookup a led := by
  induction ds generalizing led with
  | nil => rfl
  | cons d rest ih =>
    rw [List.foldl_cons, ih _ (fun x hx => h x (List.mem_cons_of_mem d hx)),
      lookup_upsert_ne _ _ _ _ _ (fun hh => (h d (List.mem_cons_self d rest)) hh.symm)]

theorem timesSeenIs_pollStep (prev : List String) (led : Ledger) (id : String) (n : Nat)
    (now : String) (cur : List DeviceSnapshot)
    (hnodup : (cur.map DeviceSnapshot.device_id).Nodup)
    (h : timesSeenIs (List.lookup id led) n) :
    timesSeenIs (List.lookup id (pollStep (prev, led) (now, cur)).2)
      (n + if (cur.map DeviceSnapshot.device_id).contains id && !(prev.contains id)
           then 1 else 0) := by
  have hstep2 : (pollStep (prev, led) (now, cur)).2
      = ((diff prev cur).1).foldl (fun l d => upsert now l d none)
          (((diff prev cur).2).foldl markDisconnected led) := rfl
  rw [hstep2]
  have hled1 : timesSeenIs
      (List.lookup id (((diff prev cur).2).foldl markDisconnected led)) n := by
    rw [lookup_foldl_markDisconnected]
    by_cases hd : id ∈ (diff prev cur).2
    · rw [if_pos hd]
      cases hl : List.lookup id led with
      | none => rw [hl] at h; exact h
      | some kd => rw [hl] at h; exact h
    · rw [if_neg hd]; exact h
  by_cases hin : id ∈ cur.map DeviceSnapshot.device_id ∧ id ∉ prev
  · have hdelta : ((cur.map DeviceSnapshot.device_id).contains id
        && !(prev.contains id)) = true := by
      simp [hin.1, hin.2]
    rw [if_pos hdelta]
    obtain ⟨d, hd, hdid⟩ := List.mem_map.mp hin.1
    have hdconn : d ∈ (diff prev cur).1 :=
      List.mem_filter.mpr ⟨hd, by simp [hdid, hin.2]⟩
    obtain ⟨l1, l2, hsplit⟩ := List.append_of_mem hdconn
    have hconnsub : (diff prev cur).1.Sublist cur := List.filter_sublist cur
    have hconnodup : ((diff prev cur).1.map DeviceSnapshot.device_id).Nodup :=
      (hconnsub.map DeviceSnapshot.device_id).nodup hnodup
    rw [hsplit, List.map_append, List.map_cons] at hconnodup
    have hnodup2 := List.nodup_append.mp hconnodup
    have hidl1 : ∀ x ∈ l1, x.device_id ≠ id := by
      intro x hx heq
      refine hnodup2.2.2 (List.mem_map_of_mem DeviceSnapshot.device_id hx) ?_
      rw [heq, ← hdid]
      exact List.mem_cons_self _ _
    have hidl2 : ∀ x ∈ l2, x.device_id ≠ id := by
      intro x hx heq
      refine (List.nodup_cons.mp hnodup2.2.1).1 ?_
      rw [hdid, ← heq]
      exact List.mem_map_of_mem DeviceSnapshot.device_id hx
    rw [hsplit, List.foldl_append, List.foldl_cons]
    rw [lookup_foldl_upsert_ne now l2 _ id hidl2]
    rw [← hdid, lookup_upsert_self]
    have hbase : List.lookup d.device_id
        (l1.foldl (fun l d => upsert now l d none)
          (((diff prev cur).2).foldl markDisconnected led))
        = List.lookup d.device_id (((diff prev cur).2).foldl markDisconnected led) := by
      refine lookup_foldl_upsert_ne now l1 _ d.device_id ?_
      intro x hx heq
      exact hidl1 x hx (heq.trans hdid)
    rw [hbase]
    rw [hdid] at hbase ⊢
    cases hl : List.lookup id (((diff prev cur).2).foldl markDisconnected led) with
    | none =>
      rw [hl] at hled1
      have hn : n = 0 := hled1
      rw [hn]
      rfl
    | some kd =>
      rw [hl] at hled1
      have hn : kd.times_seen = n := hled1
      show (mergeDevice now d none kd).times_seen = n + 1
      show kd.times_seen + 1 = n + 1
      rw [hn]
  · have hdelta : ((cur.map DeviceSnapshot.device_id).contains id
        && !(prev.contains id)) = false := by
      rcases not_and_or.mp hin with hni | hnp
      · simp [hni]
      · simp [not_not.mp hnp]
    rw [if_neg (by rw [hdelta]; exact Bool.false_ne_true), Nat.add_zero]
    have hconn : ∀ x ∈ (diff prev cur).1, x.device_id ≠ id := by
      intro x hx heq
      have hxin : x ∈ cur ∧ (!(prev.contains x.device_id)) = true := List.mem_filter.mp hx
      refine hin ⟨?_, ?_⟩
      · rw [← heq]
        exact List.mem_map_of_mem DeviceSnapshot.device_id hxin.1
      · intro hidprev
        have hb := hxin.2
        rw [heq] at hb
        simp [hidprev] at hb
    rw [lookup_foldl_upsert_ne now _ _ id hconn]
    exact hled1

theorem timesSeenIs_runAux (seq : List (String × List DeviceSnapshot)) (id : String) :
    ∀ (st : List String × Ledger) (n : Nat),
      (∀ p ∈ seq, (p.2.map DeviceSnapshot.device_id).Nodup) →
      timesSeenIs (List.lookup id st.2) n →
      timesSeenIs (List.lookup id (seq.foldl pollStep st).2)
        (connectCountAux id st.1 n seq) := by
  induction seq with
  | nil => exact fun st n _ h => h
  | cons p rest ih =>
    intro st n hnodup h
    obtain ⟨prev, led⟩ := st
    obtain ⟨now, cur⟩ := p
    rw [List.foldl_cons]
    exact ih (pollStep (prev, led) (now, cur)) _
      (fun q hq => hnodup q (List.mem_cons_of_mem _ hq))
      (timesSeenIs_pollStep prev led id n now cur
        (hnodup _ (List.mem_cons_self _ _)) h)

/-- C2: over any run of enumerations from a fresh start (each poll
reporting a set of devices — identities within one poll are distinct),
the Ledger's `times_seen` for an identity equals the number of its
connect transitions: polls where it is present but was absent from the
previous poll. A fresh sighting counts as one; re-observing an
already-connected identity never increments, and an identity never seen
has no entry. -/
theorem times_seen_counts_connects (seq : List (String × List DeviceSnapshot))
    (id : String)
    (hnodup : ∀ p ∈ seq, (p.2.map DeviceSnapshot.device_id).Nodup) :
    timesSeenIs (List.lookup id (runPolls seq).2) (connectCount id seq) :=
  timesSeenIs_runAux seq id ([], []) 0 hnodup rfl

/-- Evaluation of C2 on the sample run {A}, {A,B}, {B}, {A,B}: identity
`"A"` disconnects once and reconnects, giving `times_seen = 2` while it
was present in three polls. -/
theorem times_seen_counts_connects_app :
    timesSeenIs (List.lookup "A" (runPolls sampleSeq).2) (connectCount "A" sampleSeq) ∧
    connectCount "A" sampleSeq = 2 :=
  ⟨times_seen_counts_connects sampleSeq "A" (by decide), by decide⟩

end DeviceHistory
